import Mathlib

/-
Shallow embedding of the JSON Schema validator of sql/json_schema.cc and
sql/json_schema.h (schema compiler, keyword validators, fall-back chain,
combinators, conditional wiring).

Conventions kept from the source:
* every validate function returns true on FAILURE and false on success;
* every handle_keyword reports a compile error through my_error (modeled as an
  Option String carrying the offending keyword name) and returns true to abort
  compilation, false to continue.
-/

/-- Modelled from the spec: the value-type enumeration of the external tokeniser
(json_lib's json_value_types, §4.1 of the spec), listed there in the order
object, array, string, number, true, false, null, preceded by the
uninitialized state 0. -/
inductive JsonKind where
  | uninitialized
  | object
  | array
  | string
  | number
  | vTrue
  | vFalse
  | vNull
deriving DecidableEq

/-- Modelled from the spec: the numeric code of each json_value_types member,
following the order of §4.1 (object=1 ... null=7). The C macro TRUE expands to
1, which is the code of the object kind, not of the true literal. -/
def jsonKindCode : JsonKind → Nat
  | .uninitialized => 0
  | .object => 1
  | .array => 2
  | .string => 3
  | .number => 4
  | .vTrue => 5
  | .vFalse => 6
  | .vNull => 7

/-- A parsed JSON instance value. Numbers are modeled as rationals (the source
parses them into a double with strntod); strings keep their text. -/
inductive JsonValue where
  | obj  : List (String × JsonValue) → JsonValue
  | arr  : List JsonValue → JsonValue
  | str  : String → JsonValue
  | num  : Rat → JsonValue
  | tru  : JsonValue
  | fls  : JsonValue
  | null : JsonValue

/-- The value kind the tokeniser reports for a value (je->value_type). -/
def JsonValue.kind : JsonValue → JsonKind
  | .obj _ => .object
  | .arr _ => .array
  | .str _ => .string
  | .num _ => .number
  | .tru => .vTrue
  | .fls => .vFalse
  | .null => .vNull

mutual

/-- Modelled from the spec: json_get_normalized_string of the external helper,
the canonical string form used as equality kernel (§3): strings byte-for-byte
in quotes, numbers in canonical form, object keys sorted with whitespace
removed, arrays in order. -/
def canonS : JsonValue → String
  | .obj ms =>
      "\x7b" ++ String.intercalate ","
        (((canonPairsS ms).mergeSort (fun a b => decide (a.1 ≤ b.1))).map
          (fun p => "\x22" ++ p.1 ++ "\x22:" ++ p.2)) ++ "\x7d"
  | .arr xs => "[" ++ String.intercalate "," (canonElemsS xs) ++ "]"
  | .str s => "\x22" ++ s ++ "\x22"
  | .num q => toString q
  | .tru => "true"
  | .fls => "false"
  | .null => "null"

def canonPairsS : List (String × JsonValue) → List (String × String)
  | [] => []
  | (k, v) :: r => (k, canonS v) :: canonPairsS r

def canonElemsS : List JsonValue → List String
  | [] => []
  | v :: r => canonS v :: canonElemsS r

end

/-- Json_schema_type::validate (json_schema.cc:178-184):
fails iff the bit of the instance kind is absent from the mask,
!((1 << je->value_type) & type). -/
def json_schema_type_validate (type : Nat) (v : JsonValue) : Bool :=
  ((1 <<< jsonKindCode v.kind) &&& type) == 0

/-- Json_schema_minimum::validate (json_schema.cc:448-462): a non-number
instance passes unconditionally; a number fails iff val < minimum. -/
def json_schema_minimum_validate (minimum : Rat) (v : JsonValue) : Bool :=
  match v with
  | .num val => decide (val < minimum)
  | _ => false

/-- Json_schema_maximum::validate (json_schema.cc:410-424): a non-number
instance passes unconditionally; a number fails iff val > maximum. -/
def json_schema_maximum_validate (maximum : Rat) (v : JsonValue) : Bool :=
  match v with
  | .num val => decide (val > maximum)
  | _ => false

/-- Json_schema_max_len::validate (json_schema.cc:605-613): a non-string
instance passes; a string fails iff its byte length exceeds max_len. -/
def json_schema_max_len_validate (max_len : Nat) (v : JsonValue) : Bool :=
  match v with
  | .str s => decide (s.utf8ByteSize > max_len)
  | _ => false

/-- Json_schema_required::validate (json_schema.cc:1352-1416): a non-object
instance passes; an object fails iff some required name is missing among its
keys. -/
def json_schema_required_validate (required_properties : List String)
    (v : JsonValue) : Bool :=
  match v with
  | .obj members =>
      required_properties.any (fun r => !(members.any (fun kv => kv.1 == r)))
  | _ => false

/-- Json_schema_max_items::validate (json_schema.cc:716-742): a non-array
instance passes; an array fails iff its element count exceeds max_items. -/
def json_schema_max_items_validate (max_items : Nat) (v : JsonValue) : Bool :=
  match v with
  | .arr elems => decide (elems.length > max_items)
  | _ => false

/-- The plain keyword variants of the embedding, each validated by the
corresponding source function above. -/
inductive SKeyword where
  | typeKw (mask : Nat)
  | minimumKw (m : Rat)
  | maximumKw (m : Rat)
  | maxLenKw (n : Nat)
  | requiredKw (names : List String)
  | maxItemsKw (n : Nat)
deriving DecidableEq

/-- Dispatch of the virtual Json_schema_keyword::validate over the embedded
plain variants (true = failure, as in the source). -/
def skValidate : SKeyword → JsonValue → Bool
  | .typeKw t, v => json_schema_type_validate t v
  | .minimumKw m, v => json_schema_minimum_validate m v
  | .maximumKw m, v => json_schema_maximum_validate m v
  | .maxLenKw n, v => json_schema_max_len_validate n v
  | .requiredKw names, v => json_schema_required_validate names v
  | .maxItemsKw n, v => json_schema_max_items_validate n v

/-- Json_schema_additional_and_unevaluated: the target type of an alternate
reference in the object/array fall-back chain (json_schema.h:84-102), carrying
the allowed flag and the compiled sub-schema keyword list. -/
structure Json_schema_additional_and_unevaluated where
  allowed : Bool
  schema_list : List SKeyword
deriving DecidableEq

/-- Json_schema_additional_and_unevaluated::validate (json_schema.cc:1726-1745):
the value is validated against every keyword of schema_list, failing on the
first failure; validate_as_alternate (json_schema.cc:1669-1676) forwards to the
same function. -/
def json_schema_additional_and_unevaluated_validate
    (schema_list : List SKeyword) (v : JsonValue) : Bool :=
  schema_list.any (fun k => skValidate k v)

/-- Json_schema_keyword::fall_back_on_alternate_schema (json_schema.cc:31-49):
with no alternate the unmatched value passes; with an alternate whose allowed
flag is cleared it fails; otherwise the alternate's validate_as_alternate
decides. -/
def fall_back_on_alternate_schema
    (alternate_schema : Option Json_schema_additional_and_unevaluated)
    (v : JsonValue) : Bool :=
  match alternate_schema with
  | some a =>
      if a.allowed then json_schema_additional_and_unevaluated_validate a.schema_list v
      else true
  | none => false

/-- Json_schema_properties::validate (json_schema.cc:1786-1852), member loop: a
key found in the properties hash is validated against its compiled sub-schema;
a key not found is delegated to fall_back_on_alternate_schema. -/
def propertiesMemberLoop (properties : List (String × List SKeyword))
    (alternate_schema : Option Json_schema_additional_and_unevaluated) :
    List (String × JsonValue) → Bool
  | [] => false
  | (k, val) :: rest =>
    match properties.lookup k with
    | some schema =>
        if schema.any (fun kw => skValidate kw val) then true
        else propertiesMemberLoop properties alternate_schema rest
    | none =>
        if fall_back_on_alternate_schema alternate_schema val then true
        else propertiesMemberLoop properties alternate_schema rest

/-- Json_schema_properties::validate (json_schema.cc:1786-1852): a non-object
instance passes; an object is scanned key by key with propertiesMemberLoop. -/
def json_schema_properties_validate (properties : List (String × List SKeyword))
    (alternate_schema : Option Json_schema_additional_and_unevaluated)
    (v : JsonValue) : Bool :=
  match v with
  | .obj members => propertiesMemberLoop properties alternate_schema members
  | _ => false

/-- The allowed flag create_object passes to Json_schema_additional_properties
(json_schema.cc:2451): the source compares je->value_type with the C macro
TRUE, which expands to 1, the code of JSON_VALUE_OBJECT, not with
JSON_VALUE_TRUE. -/
def additionalPropertiesAllowedVal (k : JsonKind) : Bool :=
  jsonKindCode k == 1

/-- The allowed flag create_object passes to Json_schema_additional_items
(json_schema.cc:2421): again je->value_type == TRUE with TRUE expanding to 1. -/
def additionalItemsAllowedVal (k : JsonKind) : Bool :=
  jsonKindCode k == 1

/-- The allowed flag create_object passes to Json_schema_unevaluated_items
(json_schema.cc:2429): again je->value_type == TRUE with TRUE expanding to 1. -/
def unevaluatedItemsAllowedVal (k : JsonKind) : Bool :=
  jsonKindCode k == 1

/-- The allowed flag create_object passes to Json_schema_unevaluated_properties
(json_schema.cc:2466), the one branch that spells JSON_VALUE_TRUE. -/
def unevaluatedPropertiesAllowedVal (k : JsonKind) : Bool :=
  k == .vTrue

/-- Payload of a keyword node of a compiled sub-schema list: either a plain
keyword or a Json_schema_properties node with its property map. -/
inductive KPayload where
  | plain (kw : SKeyword)
  | propertiesNode (properties : List (String × List SKeyword))
deriving DecidableEq

/-- A Json_schema_keyword node of a compiled keyword list together with its
mutable alternate_schema reference (json_schema.h:29). -/
structure KNode where
  payload : KPayload
  alternate_schema : Option Json_schema_additional_and_unevaluated
deriving DecidableEq

/-- Virtual validate of a keyword node: a plain keyword ignores its alternate;
a properties node consults it through fall_back_on_alternate_schema. -/
def knodeValidate (n : KNode) (v : JsonValue) : Bool :=
  match n.payload with
  | .plain kw => skValidate kw v
  | .propertiesNode props => json_schema_properties_validate props n.alternate_schema v

/-- Selection of this->alternate_schema at the top of Json_schema_logic::validate
and Json_schema_not::validate (json_schema.cc:2145-2148 and 2212-2215): the
unevaluated-items reference for arrays, the unevaluated-properties reference
for objects, the previous member value otherwise. -/
def logicAlternateFor
    (unevaluated_items unevaluated_properties alternate0 :
      Option Json_schema_additional_and_unevaluated)
    (v : JsonValue) : Option Json_schema_additional_and_unevaluated :=
  if v.kind = .array then unevaluated_items
  else if v.kind = .object then unevaluated_properties
  else alternate0

/-- Keyword loop of Json_schema_logic::validate (json_schema.cc:2157-2173).
has_alternate is initialised once per sub-schema, before this loop, and is
never reset per keyword; a keyword whose alternate_schema is NULL receives the
combinator's alternate, and after a successful validate the keyword's
alternate_schema is set to NULL whenever has_alternate is still true; on a
failed validate the loop breaks, skipping that reset. Returns the validated
flag and the keyword nodes as the loop leaves them. -/
def logicKeywordLoop (alt : Option Json_schema_additional_and_unevaluated)
    (v : JsonValue) : List KNode → Bool → Bool × List KNode
  | [], _ => (true, [])
  | n :: rest, has_alternate =>
    let injected := n.alternate_schema.isNone
    let ha := has_alternate || injected
    let n1 : KNode := if injected then ⟨n.payload, alt⟩ else n
    if knodeValidate n1 v then
      (false, n1 :: rest)
    else
      let n2 : KNode := if ha then ⟨n1.payload, none⟩ else n1
      let r := logicKeywordLoop alt v rest ha
      (r.fst, n2 :: r.snd)

/-- Sub-schema loop of Json_schema_logic::validate (json_schema.cc:2150-2185):
count_validations is incremented for a fully validated sub-schema, or when the
combinator's alternate accepts through fall_back_on_alternate_schema. -/
def logicSchemasLoop (alt : Option Json_schema_additional_and_unevaluated)
    (v : JsonValue) : List (List KNode) → Nat × List (List KNode)
  | [] => (0, [])
  | s :: rest =>
    let r := logicKeywordLoop alt v s false
    let c : Nat :=
      if r.fst then 1
      else if alt.isSome && !(fall_back_on_alternate_schema alt v) then 1 else 0
    let rr := logicSchemasLoop alt v rest
    (c + rr.fst, r.snd :: rr.snd)

/-- The combinator variants sharing Json_schema_logic::validate. -/
inductive LogicKind where
  | allOfK
  | anyOfK
  | oneOfK
deriving DecidableEq

/-- validate_count of Json_schema_all_of, Json_schema_any_of,
Json_schema_one_of (json_schema.h:736, 746, 756): true = failure. -/
def logicValidateCount : LogicKind → Nat → Nat → Bool
  | .allOfK, count, total => count != total
  | .anyOfK, count, _ => count == 0
  | .oneOfK, count, _ => !(count == 1)

/-- Json_schema_logic::validate (json_schema.cc:2133-2191). Besides the
verdict it returns the final value of this->alternate_schema (assigned at
lines 2145-2148) and the sub-schema keyword nodes as the loops leave them. -/
def json_schema_logic_validate (kind : LogicKind)
    (unevaluated_items unevaluated_properties alternate0 :
      Option Json_schema_additional_and_unevaluated)
    (schema_items : List (List KNode)) (v : JsonValue) :
    Bool × Option Json_schema_additional_and_unevaluated × List (List KNode) :=
  let alternate_schema :=
    logicAlternateFor unevaluated_items unevaluated_properties alternate0 v
  let r := logicSchemasLoop alternate_schema v schema_items
  (logicValidateCount kind r.fst schema_items.length, alternate_schema, r.snd)

/-- Injection step of the keyword loop of Json_schema_not::validate
(json_schema.cc:2219-2224): a keyword whose alternate_schema is set gets it
replaced by the combinator's alternate before validating. -/
def notInjected (alt : Option Json_schema_additional_and_unevaluated)
    (n : KNode) : KNode :=
  if n.alternate_schema.isSome then ⟨n.payload, alt⟩ else n

/-- Keyword loop of Json_schema_not::validate (json_schema.cc:2217-2231):
count_validations counts the keywords whose validate succeeds; when the keyword
had an alternate, it is set to NULL afterwards. -/
def notKeywordLoop (alt : Option Json_schema_additional_and_unevaluated)
    (v : JsonValue) : List KNode → Nat × List KNode
  | [] => (0, [])
  | n :: rest =>
    let has_alternate := n.alternate_schema.isSome
    let n1 := notInjected alt n
    let c : Nat := if knodeValidate n1 v then 0 else 1
    let n2 : KNode := if has_alternate then ⟨n1.payload, none⟩ else n1
    let r := notKeywordLoop alt v rest
    (c + r.fst, n2 :: r.snd)

/-- Json_schema_not::validate (json_schema.cc:2202-2237) with validate_count
from json_schema.h:725: the verdict is failure iff count_validations != 0,
i.e. iff at least one keyword of the sub-schema's keyword list succeeded. -/
def json_schema_not_validate
    (unevaluated_items unevaluated_properties alternate0 :
      Option Json_schema_additional_and_unevaluated)
    (schema_list : List KNode) (v : JsonValue) : Bool × List KNode :=
  let alternate_schema :=
    logicAlternateFor unevaluated_items unevaluated_properties alternate0 v
  let r := notKeywordLoop alternate_schema v schema_list
  (r.fst != 0, r.snd)

/-- Json_schema_contains::validate (json_schema.cc:865-890). A non-array
instance passes. For an array, the loop iterates the KEYWORD LIST of the
compiled contains sub-schema and validates each keyword against the whole
array value (curr_je); contains_count is the number of keywords that accepted
the array. The verdict combines the optional min_contains/max_contains values:
pass iff (max present ? count <= max : count > 0) and
(min present ? count >= min : count > 0). -/
def json_schema_contains_validate (contains : List SKeyword)
    (min_contains max_contains : Option Nat) (v : JsonValue) : Bool :=
  match v with
  | .arr _ =>
    let contains_count := (contains.filter (fun k => !(skValidate k v))).length
    let maxOk : Bool := match max_contains with
      | some m => decide (contains_count ≤ m)
      | none => decide (contains_count > 0)
    let minOk : Bool := match min_contains with
      | some m => decide (contains_count ≥ m)
      | none => decide (contains_count > 0)
    !(maxOk && minOk)
  | _ => false

/-- Modelled from the spec: the number of array elements that satisfy the
contains sub-schema, i.e. elements accepted by every keyword of the compiled
sub-schema list. Written from the spec's words for comparison with
json_schema_contains_validate; it is not how the source computes the count. -/
def specContainsMatchCount (contains : List SKeyword)
    (elems : List JsonValue) : Nat :=
  (elems.filter (fun e => contains.all (fun k => !(skValidate k e)))).length

/-- Truncation toward zero: the effect of the (long long int) cast in
Json_schema_multiple_of::validate. -/
def ratTrunc (x : Rat) : Int :=
  x.num / (x.den : Int)

/-- Json_schema_multiple_of::validate (json_schema.cc:561-578): a non-number
instance passes; for a number the code computes temp = val / multiple_of with
no guard on the divisor and tests temp - (long long int)temp == 0. A zero
divisor makes the floating division produce inf/nan and the integer cast
undefined; that case is modeled as none. -/
def json_schema_multiple_of_validate (multiple_of : Rat) (v : JsonValue) :
    Option Bool :=
  match v with
  | .num val =>
    if multiple_of = 0 then none
    else
      let temp := val / multiple_of
      some (!(decide (temp - (ratTrunc temp : Rat) = 0)))
  | _ => some false

/-- Result of a handle_keyword call: the keyword name passed to my_error, if
any was reported, and the returned abort flag (true aborts compilation). -/
structure HandleResult where
  error : Option String
  failed : Bool
deriving DecidableEq

/-- Json_schema_multiple_of::handle_keyword (json_schema.cc:580-602): a
non-number argument is reported and aborts; a negative value is reported but
the value is still stored and the function returns false (success). The second
component is the stored multiple_of. -/
def json_schema_multiple_of_handle_keyword (argKind : JsonKind) (argVal : Rat) :
    HandleResult × Option Rat :=
  if argKind ≠ .number then (⟨some "multipleOf", true⟩, none)
  else (⟨if argVal < 0 then some "multipleOf" else none, false⟩, some argVal)

/-- Json_schema_format::handle_keyword (json_schema.cc:165-176): a non-string
argument is reported through my_error, but the function always returns false
(success). -/
def json_schema_format_handle_keyword (argKind : JsonKind) : HandleResult :=
  ⟨if argKind ≠ .string then some "format" else none, false⟩

/-- Json_schema_maximum::handle_keyword (json_schema.cc:426-446): a non-number
argument is reported and aborts; otherwise the value is stored. -/
def json_schema_maximum_handle_keyword (argKind : JsonKind) (argVal : Rat) :
    HandleResult × Option Rat :=
  if argKind ≠ .number then (⟨some "maximum", true⟩, none)
  else (⟨none, false⟩, some argVal)

/-- Element loop of Json_schema_unique_items::validate
(json_schema.cc:1144-1196). The flag variables has_none, has_true, has_false,
has_null are declared INSIDE the loop body (line 1146), so has_none is 0 again
at every element and the duplicate tests for true/false/null never fire; only
values of other kinds go through the canonical-form set. -/
def uniqueItemsLoop : List JsonValue → List String → Bool
  | [], _ => false
  | e :: rest, unique_items =>
    let has_none := 0
    let has_true := 2
    let has_false := 4
    let has_null := 8
    match e.kind with
    | .vTrue =>
        if (has_none &&& has_true) != 0 then true
        else uniqueItemsLoop rest unique_items
    | .vFalse =>
        if (has_none &&& has_false) != 0 then true
        else uniqueItemsLoop rest unique_items
    | .vNull =>
        if (has_none &&& has_null) != 0 then true
        else uniqueItemsLoop rest unique_items
    | _ =>
        let norm_str := canonS e
        if unique_items.contains norm_str then true
        else uniqueItemsLoop rest (norm_str :: unique_items)

/-- Json_schema_unique_items::validate (json_schema.cc:1127-1209): a non-array
instance passes; an array fails iff the element loop detects a duplicate. -/
def json_schema_unique_items_validate (v : JsonValue) : Bool :=
  match v with
  | .arr elems => uniqueItemsLoop elems []
  | _ => false

/-- A keyword node of the conditional group as it sits on the temporary list of
create_object_and_handle_keyword: its fixed keyword_name from create_object and
the sub-schema its handle_keyword (json_schema.cc:2270-2276) compiled into
conditions_schema. -/
structure PendingConditional where
  name : String
  conditions_schema : List SKeyword

/-- A Json_schema_conditional node (json_schema.h:759-779): the three member
pointers if_cond, then_cond, else_cond (all NULL from the constructor; only
then_cond and else_cond are ever assigned, through set_dependents) and the
compiled conditions_schema. -/
inductive CondNode where
  | mk (if_cond then_cond else_cond : Option CondNode)
       (conditions_schema : List SKeyword) : CondNode

/-- The conditional branch of the classification loop of
add_schema_interdependence (json_schema.cc:2706-2720). The source tests the
keyword name with strncmp(name, lit, strlen(lit)), which on the fixed names
"if", "then", "else" amounts to equality, written ==. The third branch repeats
the comparison against "then" (line 2717), so a pending "else" keyword matches
neither assignment and is dropped. -/
def classifyConditionals (pending : List PendingConditional) :
    Option PendingConditional × Option PendingConditional ×
      Option PendingConditional :=
  pending.foldl
    (fun acc kw =>
      if kw.name == "if" then (some kw, acc.2.1, acc.2.2)
      else if kw.name == "then" then (acc.1, some kw, acc.2.2)
      else if kw.name == "then" then (acc.1, acc.2.1, some kw)
      else acc)
    (none, none, none)

/-- A pending conditional keyword as a compiled node: if_cond, then_cond and
else_cond keep the constructor's NULL. -/
def pendingToNode (p : PendingConditional) : CondNode :=
  .mk none none none p.conditions_schema

/-- The conditional wiring of add_schema_interdependence
(json_schema.cc:2740-2760): with an if node present, it is an error when both
then_cond and else_cond are missing, otherwise set_dependents(then_cond,
else_cond) wires the if node (json_schema.h:774-778) and it is pushed; with no
if node, it is an error when exactly one of then_cond/else_cond is present.
The if_cond member of the pushed node stays NULL: nothing in the source ever
assigns it. Returns (error flag, pushed if node). -/
def add_schema_interdependence_conditionals
    (pending : List PendingConditional) : Bool × Option CondNode :=
  let c := classifyConditionals pending
  match c.1, c.2.1, c.2.2 with
  | some i, thenc, elsec =>
    if thenc.isNone && elsec.isNone then (true, none)
    else (false, some (.mk none (thenc.map pendingToNode)
                          (elsec.map pendingToNode) i.conditions_schema))
  | none, thenc, elsec =>
    if thenc.isSome || elsec.isSome then
      (if thenc.isNone || elsec.isNone then (true, none) else (false, none))
    else (false, none)

/-- Json_schema_conditional::validate (json_schema.cc:2239-2267): the code
calls if_cond->validate(je); both that call and the then_cond->validate /
else_cond->validate calls dispatch back to Json_schema_conditional::validate.
A virtual call through a NULL pointer is undefined behaviour, modeled as none;
with the if sub-schema passing, an absent then_cond makes the function return
true (failure), and symmetrically for an absent else_cond. -/
def condValidate : CondNode → JsonValue → Option Bool
  | .mk if_cond then_cond else_cond _, v =>
    match if_cond with
    | none => none
    | some icn =>
      match condValidate icn v with
      | none => none
      | some ifFailed =>
        if !ifFailed then
          match then_cond with
          | some t => condValidate t v
          | none => some true
        else
          match else_cond with
          | some e => condValidate e v
          | none => some true

/-- Claim C1: refuted by evaluating the code at a concrete input. For the
schema keyword contains = a sub-schema whose compiled keyword list is
[type number] (and no minContains/maxContains) and the array instance [1],
exactly one element satisfies the sub-schema and 1 lies in the default
interval [1, infinity], so the claim demands success; but
Json_schema_contains::validate validates the sub-schema keywords against the
whole array value instead of its elements, counts 0, and fails. -/
theorem c1_contains_fails_on_singleton_match :
    json_schema_contains_validate [.typeKw (1 <<< jsonKindCode .number)]
        none none (.arr [.num 1]) = true ∧
    specContainsMatchCount [.typeKw (1 <<< jsonKindCode .number)]
        [.num 1] = 1 := by
  decide

/-- Claim C2: refuted by evaluating the code on the claim's schema. Compiling
the object with the keywords if, then, else succeeds, but the interdependence
pass drops the else node (its branch compares the keyword name against
"then"), so the pushed if node has else_cond = NULL; its if_cond member is the
constructor's NULL, so Json_schema_conditional::validate dereferences a NULL
pointer on every instance (modeled none) instead of accepting
the instance with k = "B" and y present. -/
theorem c2_conditional_validate_crashes (si st se : List SKeyword)
    (v : JsonValue) :
    add_schema_interdependence_conditionals
        [⟨"if", si⟩, ⟨"then", st⟩, ⟨"else", se⟩] =
      (false, some (.mk none (some (.mk none none none st)) none si)) ∧
    condValidate (.mk none (some (.mk none none none st)) none si) v = none :=
  ⟨rfl, rfl⟩

/-- Claim C3: refuted by evaluating the code at a concrete input. For
additionalProperties (and additionalItems, unevaluatedItems) with the JSON
boolean true as argument, create_object computes allowed as
je->value_type == TRUE, i.e. == 1 = JSON_VALUE_OBJECT, so allowed is false;
an uncaptured property of the instance with the single key "b" is therefore
rejected by the fall-back chain, although the claim says a boolean true schema
stays permissive. With allowed = true (what the claim describes) the same
instance is accepted. -/
theorem c3_boolean_true_schema_rejects_uncaptured :
    additionalPropertiesAllowedVal .vTrue = false ∧
    additionalItemsAllowedVal .vTrue = false ∧
    unevaluatedItemsAllowedVal .vTrue = false ∧
    unevaluatedPropertiesAllowedVal .vTrue = true ∧
    json_schema_properties_validate [("a", [])]
        (some ⟨additionalPropertiesAllowedVal .vTrue, []⟩)
        (.obj [("b", .num 1)]) = true ∧
    json_schema_properties_validate [("a", [])] (some ⟨true, []⟩)
        (.obj [("b", .num 1)]) = false := by
  decide

/-- Claim C4: for the single-kind non-applicator keywords minimum, maximum,
maxLength, required and maxItems, an instance whose value kind differs from
the keyword's domain kind makes validate return success (false), a no-op
pass. -/
theorem c4_kind_mismatch_inert (m M : Rat) (len cnt : Nat)
    (names : List String) (v : JsonValue) :
    (v.kind ≠ .number → json_schema_minimum_validate m v = false) ∧
    (v.kind ≠ .number → json_schema_maximum_validate M v = false) ∧
    (v.kind ≠ .string → json_schema_max_len_validate len v = false) ∧
    (v.kind ≠ .object → json_schema_required_validate names v = false) ∧
    (v.kind ≠ .array → json_schema_max_items_validate cnt v = false) := by
  cases v <;>
    simp [json_schema_minimum_validate, json_schema_maximum_validate,
      json_schema_max_len_validate, json_schema_required_validate,
      json_schema_max_items_validate, JsonValue.kind]

/-- Witness for claim C4: each kind-mismatch hypothesis discharged at a
concrete instance. -/
theorem c4_kind_mismatch_inert_witness :
    json_schema_minimum_validate 3 (.str "a") = false ∧
    json_schema_maximum_validate 3 (.str "a") = false ∧
    json_schema_max_len_validate 1 (.num 100) = false ∧
    json_schema_required_validate ["k"] (.arr []) = false ∧
    json_schema_max_items_validate 0 (.obj []) = false :=
  ⟨(c4_kind_mismatch_inert 3 3 1 0 ["k"] (.str "a")).1 (by decide),
   (c4_kind_mismatch_inert 3 3 1 0 ["k"] (.str "a")).2.1 (by decide),
   (c4_kind_mismatch_inert 3 3 1 0 ["k"] (.num 100)).2.2.1 (by decide),
   (c4_kind_mismatch_inert 3 3 1 0 ["k"] (.arr [])).2.2.2.1 (by decide),
   (c4_kind_mismatch_inert 3 3 1 0 ["k"] (.obj [])).2.2.2.2 (by decide)⟩

/-- Claim C5: refuted by evaluating the compile-time check at a concrete
input. A schema object with a bare else keyword compiles without error (the
classification loop never assigns else_cond, so the no-if check sees neither
branch and stays silent), although the claim says it must fail; a bare then
and a lone if do fail as the claim says. -/
theorem c5_bare_else_is_not_a_compile_error (si st se : List SKeyword) :
    (add_schema_interdependence_conditionals [⟨"else", se⟩]).fst = false ∧
    (add_schema_interdependence_conditionals [⟨"then", st⟩]).fst = true ∧
    (add_schema_interdependence_conditionals [⟨"if", si⟩]).fst = true :=
  ⟨rfl, rfl, rfl⟩

/-- Counterexample for claim C6: for the sub-schema keyword list
[type number, minimum 5] and the number instance 3, the minimum keyword
rejects the instance, so the sub-schema fails and the claim demands that not
succeed; but Json_schema_not::validate counts the accepting type keyword and
fails (validate_count is count != 0). -/
theorem c6_not_rejects_although_subschema_fails :
    (json_schema_not_validate none none none
        [⟨.plain (.typeKw (1 <<< jsonKindCode .number)), none⟩,
         ⟨.plain (.minimumKw 5), none⟩] (.num 3)).fst = true ∧
    skValidate (.minimumKw 5) (.num 3) = true ∧
    skValidate (.typeKw (1 <<< jsonKindCode .number)) (.num 3) = false := by
  decide

/-- The count of Json_schema_not::validate is zero iff every keyword of the
sub-schema list (with its alternate replaced per json_schema.cc:2219-2224)
fails on the instance. -/
theorem notKeywordLoop_count_eq_zero_iff
    (alt : Option Json_schema_additional_and_unevaluated) (v : JsonValue)
    (l : List KNode) :
    (notKeywordLoop alt v l).fst = 0 ↔
      ∀ n ∈ l, knodeValidate (notInjected alt n) v = true := by
  induction l with
  | nil => simp [notKeywordLoop]
  | cons n rest ih =>
    simp only [notKeywordLoop]
    by_cases h : knodeValidate (notInjected alt n) v = true <;>
      simp [h, ih, Nat.add_eq_zero]

/-- Claim C6 (amended): Json_schema_not::validate succeeds iff every keyword
of the owned sub-schema's keyword list rejects the instance (for the common
single-keyword sub-schema this coincides with the sub-schema failing; for a
multi-keyword sub-schema a single rejecting keyword is not enough). -/
theorem c6_not_amended
    (ui up a0 : Option Json_schema_additional_and_unevaluated)
    (l : List KNode) (v : JsonValue) :
    (json_schema_not_validate ui up a0 l v).fst = false ↔
      ∀ n ∈ l,
        knodeValidate (notInjected (logicAlternateFor ui up a0 v) n) v = true := by
  simp [json_schema_not_validate, notKeywordLoop_count_eq_zero_iff]

/-- Witness for claim C6 (amended), instantiated at a singleton sub-schema and
the number instance 3. -/
theorem c6_not_amended_witness :
    (json_schema_not_validate none none none
        [⟨.plain (.minimumKw 5), none⟩] (.num 3)).fst = false ↔
      ∀ n ∈ [(⟨.plain (.minimumKw 5), none⟩ : KNode)],
        knodeValidate (notInjected (logicAlternateFor none none none (.num 3)) n)
          (.num 3) = true :=
  c6_not_amended none none none _ (.num 3)

/-- Claim C7: refuted by evaluating the code at concrete inputs. The arrays
[true, true], [false, false] and [null, null] pass uniqueItems (the flag
variables that should detect those duplicates are declared inside the element
loop and reset at each element), although the claim says each of them fails;
duplicates that go through the canonical-form set, such as ["a", "a"], are
still detected. -/
theorem c7_unique_items_passes_scalar_duplicates :
    json_schema_unique_items_validate (.arr [.tru, .tru]) = false ∧
    json_schema_unique_items_validate (.arr [.fls, .fls]) = false ∧
    json_schema_unique_items_validate (.arr [.null, .null]) = false ∧
    json_schema_unique_items_validate (.arr [.str "a", .str "a"]) = true := by
  refine ⟨rfl, rfl, rfl, rfl⟩

/-- Claim C8: refuted by evaluating the code at a concrete input. Inside allOf
with sub-schema keyword list [type number, properties (alternate =
additionalProperties false)] and the number instance 3, both keywords
validate, but has_alternate is still set from the first keyword (which had no
alternate) when the second keyword finishes, so Json_schema_logic::validate
sets the properties node's alternate_schema to NULL: the compiled schema is
changed by validation, not restored as the claim says. -/
theorem c8_logic_validate_clobbers_alternate :
    (json_schema_logic_validate .allOfK none none none
        [[⟨.plain (.typeKw (1 <<< jsonKindCode .number)), none⟩,
          ⟨.propertiesNode [("a", [])], some ⟨false, []⟩⟩]] (.num 3)).2.2 =
      [[⟨.plain (.typeKw (1 <<< jsonKindCode .number)), none⟩,
        ⟨.propertiesNode [("a", [])], none⟩]] ∧
    (⟨.propertiesNode [("a", [])], some ⟨false, []⟩⟩ : KNode) ≠
      ⟨.propertiesNode [("a", [])], none⟩ := by
  decide

/-- Counterexample for claim C9: Json_schema_format::handle_keyword with a
number argument reports the keyword name through my_error but returns false,
so compilation is not aborted, contradicting the claim that every wrong-kind
argument makes the compile return failure. -/
theorem c9_format_error_does_not_abort :
    json_schema_format_handle_keyword .number = ⟨some "format", false⟩ := by
  decide

/-- Claim C9 (amended): a wrong-kind argument is reported with the offending
keyword name, and for data keywords such as maximum and multipleOf
handle_keyword also returns failure; but format only reports and returns
success, and an invalid value (a negative multipleOf) is reported while
handle_keyword still stores the value and returns success. -/
theorem c9_error_reporting_amended (k1 k2 : JsonKind) (x : Rat) :
    (k1 ≠ .number → json_schema_maximum_handle_keyword k1 x =
        (⟨some "maximum", true⟩, none)) ∧
    (k1 ≠ .number → json_schema_multiple_of_handle_keyword k1 x =
        (⟨some "multipleOf", true⟩, none)) ∧
    (k2 ≠ .string → json_schema_format_handle_keyword k2 =
        ⟨some "format", false⟩) ∧
    (x < 0 → json_schema_multiple_of_handle_keyword .number x =
        (⟨some "multipleOf", false⟩, some x)) := by
  refine ⟨fun h => ?_, fun h => ?_, fun h => ?_, fun h => ?_⟩ <;>
    simp [json_schema_maximum_handle_keyword,
      json_schema_multiple_of_handle_keyword,
      json_schema_format_handle_keyword, h]

/-- Witness for claim C9 (amended): every hypothesis discharged at a concrete
argument kind or value. -/
theorem c9_error_reporting_amended_witness :
    json_schema_maximum_handle_keyword .string (-1) =
      (⟨some "maximum", true⟩, none) ∧
    json_schema_multiple_of_handle_keyword .string (-1) =
      (⟨some "multipleOf", true⟩, none) ∧
    json_schema_format_handle_keyword .number = ⟨some "format", false⟩ ∧
    json_schema_multiple_of_handle_keyword .number (-1) =
      (⟨some "multipleOf", false⟩, some (-1)) :=
  ⟨(c9_error_reporting_amended .string .number (-1)).1 (by decide),
   (c9_error_reporting_amended .string .number (-1)).2.1 (by decide),
   (c9_error_reporting_amended .string .number (-1)).2.2.1 (by decide),
   (c9_error_reporting_amended .string .number (-1)).2.2.2 (by decide)⟩

/-- Claim C10: Json_schema_multiple_of::handle_keyword accepts the argument 0
without reporting anything (the error branch fires exactly for negative
values) and stores it, and for every number instance validate then performs
the division val / multiple_of with a zero divisor and no guard, modeled as
the undefined result none; the zero-divisor case is thus reachable from the
public interface. -/
theorem c10_multiple_of_zero_accepted_and_division_unguarded :
    json_schema_multiple_of_handle_keyword .number 0 = (⟨none, false⟩, some 0) ∧
    (∀ x : Rat,
      ((json_schema_multiple_of_handle_keyword .number x).fst.error).isSome =
        decide (x < 0)) ∧
    (∀ x : Rat, json_schema_multiple_of_validate 0 (.num x) = none) := by
  refine ⟨by decide, fun x => ?_, fun x => ?_⟩
  · by_cases h : x < 0 <;> simp [json_schema_multiple_of_handle_keyword, h]
  · simp [json_schema_multiple_of_validate]
